import Mathlib

/-!
Verification development for the route-navigation engine of
`whole-foods-deliverance` (`deliverance/nav.py`).

The Python module is shallowly embedded: the browser driver and the external
collaborators from `deliverance.utils` (which are out of scope for the spec and
absent from the sources) are modelled as an environment of oracled responses
(`Env`), consumed in order, together with a trace of the externally visible
actions (`Event`).  Exceptions are modelled with `Except`.
-/

namespace Deliverance

/-- Python substring test `needle in hay`, on explicit character lists:
`startsWithL n h` holds when `n` is an initial segment of `h`. -/
def startsWithL : List Char → List Char → Bool
  | [], _ => true
  | _ :: _, [] => false
  | a :: as, b :: bs => a == b && startsWithL as bs

/-- `hasSubL n h` holds when `n` occurs contiguously somewhere inside `h`. -/
def hasSubL (needle : List Char) : List Char → Bool
  | [] => startsWithL needle []
  | b :: bs => startsWithL needle (b :: bs) || hasSubL needle bs

/-- Python's `needle in hay` on strings: contiguous substring containment. -/
def pyIn (needle hay : String) : Bool :=
  hasSubL needle.data hay.data

/-- The URL patterns from `config.Patterns` (external configuration). -/
structure Patterns where
  AUTH_URL : String
  OOS_URL : String
  THROTTLE_URL : String
deriving Repr, DecidableEq

/-- The exceptions of `deliverance.exceptions` visible in `nav.py`, plus a
constructor for run-aborting signals raised by external collaborators.
`RouteRedirect` and `UnhandledRedirect` carry their optional message
argument. -/
inductive Exc where
  | NavigationException (msg : String)
  | RouteRedirect (msg : Option String)
  | UnhandledRedirect (msg : Option String)
  | ExternalError (msg : String)
deriving Repr, DecidableEq

instance {ε α : Type} [DecidableEq ε] [DecidableEq α] : DecidableEq (Except ε α)
  | .error a, .error b => decidable_of_iff (a = b) (by simp)
  | .error _, .ok _ => isFalse (by simp)
  | .ok _, .error _ => isFalse (by simp)
  | .ok a, .ok b => decidable_of_iff (a = b) (by simp)

/-- Externally visible actions performed on the driver or delegated to the
external collaborators, recorded in order of execution. -/
inductive Event where
  | wait_for_auth
  | handle_oos (ignore : Bool)
  | handle_throttle
  | refresh
  | driver_get (url : String)
  | wait_for_element (locator : String)
  | jitter
  | click (locator : String)
  | wait_staleness
  | wait_url_match (pattern : String)
deriving Repr, DecidableEq

/-- `Waypoint` from `nav.py` (lines 49-56). -/
structure Waypoint where
  locator : String
  dest : String
  optional : Bool
deriving Repr, DecidableEq

/-- `Route` from `nav.py` (lines 59-64).  `ignore_oos` is the only field of
`parser_args` the module reads (`self.args.ignore_oos`, line 113).
`waypoints_reached` is the object's mutable progress counter, carried
explicitly. -/
structure Route where
  route_start : String
  ignore_oos : Bool
  waypoints : List Waypoint
  waypoints_reached : Nat
deriving Repr, DecidableEq

/-- Oracled responses of the browser and the external collaborators, consumed
in order.  Each successive read of `driver.current_url` takes the next entry
of `urls` (the browser may be redirected at any time, so consecutive reads
need not agree); the `Bool` streams give the outcome of each wait
(`true` = timeout / failure). -/
structure Env where
  urls : List String
  elemFail : List Bool
  staleTimeout : List Bool
  urlWaitFail : List Bool
  authFail : List Bool
deriving Repr, DecidableEq

/-- The world a run threads: the remaining environment responses and the trace
of actions performed so far. -/
structure World where
  env : Env
  trace : List Event
deriving Repr, DecidableEq

def emit (e : Event) (w : World) : World :=
  { w with trace := w.trace ++ [e] }

/-- Read `driver.current_url` (raw, query string included). -/
def popUrl (w : World) : String × World :=
  match w.env.urls with
  | [] => ("", w)
  | u :: rest => (u, { w with env := { w.env with urls := rest } })

/-- Outcome of `wait_for_element`: `true` means the locator never resolved. -/
def popElemFail (w : World) : Bool × World :=
  match w.env.elemFail with
  | [] => (false, w)
  | b :: rest => (b, { w with env := { w.env with elemFail := rest } })

/-- Outcome of the staleness wait: `true` means `TimeoutException`. -/
def popStale (w : World) : Bool × World :=
  match w.env.staleTimeout with
  | [] => (false, w)
  | b :: rest => (b, { w with env := { w.env with staleTimeout := rest } })

/-- Outcome of the `WebDriverWait(...).until(EC.url_matches(...))` wait:
`true` means `TimeoutException`. -/
def popUrlWaitFail (w : World) : Bool × World :=
  match w.env.urlWaitFail with
  | [] => (false, w)
  | b :: rest => (b, { w with env := { w.env with urlWaitFail := rest } })

/-- Outcome of `wait_for_auth`: `true` means the collaborator raised. -/
def popAuthFail (w : World) : Bool × World :=
  match w.env.authFail with
  | [] => (false, w)
  | b :: rest => (b, { w with env := { w.env with authFail := rest } })

/-- Modelled from the spec: `remove_qs` (`deliverance.utils`, not in src/) —
the URL Normalizer "strips query strings/fragments for comparison; pure
function, no state". -/
def remove_qs (url : String) : String :=
  String.mk (url.data.takeWhile (fun c => !(c == '?' || c == '#')))

/-- Modelled from the spec: `wait_for_auth` (`deliverance.utils`, not in
src/) — a "blocking call that returns once authentication is resolved, or
raises on failure"; the outcome is drawn from the environment. -/
def wait_for_auth (w : World) : Except Exc Unit × World :=
  let w1 := emit .wait_for_auth w
  let p := popAuthFail w1
  if p.1 then (.error (.ExternalError "authentication failed"), p.2)
  else (.ok (), p.2)

/-- Modelled from the spec: `handle_oos` (`deliverance.utils`, not in src/) —
the out-of-stock handler, which "raises a run-aborting signal if `tolerate`
is false". -/
def handle_oos (ignore_oos : Bool) (w : World) : Except Exc Unit × World :=
  let w1 := emit (.handle_oos ignore_oos) w
  if ignore_oos then (.ok (), w1)
  else (.error (.ExternalError "out of stock"), w1)

/-- Modelled from the spec: `handle_throttle` (`deliverance.utils`, not in
src/) — a "blocking backoff delay" that returns. -/
def handle_throttle (w : World) : World :=
  emit .handle_throttle w

/-- Modelled from the spec: `wait_for_element` (`deliverance.utils`, not in
src/) — waits for the locator to resolve; "failing to resolve is itself a
`Failure` (propagated, not swallowed)". -/
def wait_for_element (locator : String) (w : World) : Except Exc Unit × World :=
  let w1 := emit (.wait_for_element locator) w
  let p := popElemFail w1
  if p.1 then
    (.error (.NavigationException ("Timed out waiting for element: " ++ locator)), p.2)
  else (.ok (), p.2)

/-- Modelled from the spec: `jitter` (`deliverance.utils`, not in src/) — a
bounded randomized pause; only its occurrence is observable. -/
def jitter (w : World) : World :=
  emit .jitter w

/-- Modelled from the spec: `click_when_enabled` (`deliverance.utils`, not in
src/) — clicks the resolved element. -/
def click_when_enabled (locator : String) (w : World) : World :=
  emit (.click locator) w

/-- Python truthiness of the optional `valid_dest` list in
`valid_dest and timeout` (line 32): `None` and the empty list are falsy. -/
def truthyList (l : Option (List String)) : Bool :=
  match l with
  | none => false
  | some xs => !xs.isEmpty

/-- Python truthiness of the optional `timeout` (line 32): `None` and `0` are
falsy. -/
def truthyNat (t : Option Nat) : Bool :=
  match t with
  | none => false
  | some n => n != 0

/-- Python truthiness of the compound condition
`route and current == route.route_start` (line 28): `Route` defines
`__len__` (lines 66-67) and no `__bool__`, so a route whose waypoint tuple
is empty is falsy and the branch is skipped for it. -/
def routeStartHit (route : Option Route) (current : String) : Bool :=
  match route with
  | none => false
  | some r => !r.waypoints.isEmpty && current == r.route_start

/-- Branches 5 and 6 of `handle_redirect` (`nav.py` lines 32-46): the wait for
a caller-supplied valid destination, else the bare `UnhandledRedirect()`. -/
def redirect_fallthrough (valid_dest : Option (List String)) (timeout : Option Nat)
    (route : Option Route) (w : World) : Except Exc Unit × World × Option Route :=
  if truthyList valid_dest && truthyNat timeout then
    let w1 := emit (.wait_url_match (String.intercalate "|" (valid_dest.getD []))) w
    let q := popUrlWaitFail w1
    if q.1 then
      let p := popUrl q.2
      (.error (.UnhandledRedirect (some
        ("Timed out waiting for redirect to a valid dest\nCurrent URL: " ++ p.1))),
       p.2, route)
    else (.ok (), q.2, route)
  else
    (.error (.UnhandledRedirect none), w, route)

/-- `handle_redirect` (`nav.py` lines 16-46).  The route object is threaded
through and returned so that any mutation of it would be observable. -/
def handle_redirect (P : Patterns) (route : Option Route) (ignore_oos : Bool)
    (valid_dest : Option (List String)) (timeout : Option Nat) (w : World) :
    Except Exc Unit × World × Option Route :=
  let p := popUrl w
  let current := remove_qs p.1
  let w1 := p.2
  if pyIn P.AUTH_URL current then
    let a := wait_for_auth w1
    (a.1, a.2, route)
  else if pyIn P.OOS_URL current then
    let a := handle_oos ignore_oos w1
    (a.1, a.2, route)
  else if pyIn P.THROTTLE_URL current then
    (.error (.RouteRedirect (some "Redirected after throttle")),
     handle_throttle w1, route)
  else if routeStartHit route current then
    (.error (.RouteRedirect none),
     (match route with
      | some r => if r.waypoints_reached = 0 then emit .refresh w1 else w1
      | none => w1),
     route)
  else
    redirect_fallthrough valid_dest timeout route w1

/-- `Route.navigate_waypoint` (`nav.py` lines 73-92), parametrised over
`config.BASE_URL`.  The timeouts of the waits are only passed to the driver,
whose outcomes are oracled, so `timeout` is not otherwise consumed. -/
def navigate_waypoint (BASE_URL : String) (waypoint : Waypoint) (_timeout : Nat)
    (valid_dest : List String) (w : World) : Except Exc Unit × World :=
  match wait_for_element waypoint.locator w with
  | (.error exc, w1) => (.error exc, w1)
  | (.ok _, w1) =>
    let w2 := jitter w1
    let w3 := click_when_enabled waypoint.locator w2
    let w4 := emit .wait_staleness w3
    let s := popStale w4
    let p := popUrl s.2
    let current := remove_qs p.1
    if current = BASE_URL ++ waypoint.dest then (.ok (), p.2)
    else if !valid_dest.isEmpty && valid_dest.any (fun d => pyIn d current) then
      (.ok (), p.2)
    else
      (.error (.NavigationException ("Navigation to " ++ waypoint.dest ++ " failed")),
       p.2)

/-- The `valid_dest` list computed by `Route.navigate` before attempting the
waypoint at position `i` (`nav.py` lines 102-105):
`[waypnt.dest for waypnt in self.waypoints[self.waypoints.index(waypoint)+1:]]`.
`Waypoint` defines no `__eq__`, so Python's `list.index` compares by object
identity here and returns the loop waypoint's own position `i` (every waypoint
object occurs once in the tuple; `build_route` constructs them fresh). -/
def valid_dest_for (waypoints : List Waypoint) (i : Nat) : List String :=
  (waypoints.drop (i + 1)).map (fun wp => wp.dest)

/-- One iteration of the `for waypoint in self.waypoints` loop of
`Route.navigate` (`nav.py` lines 101-116): the `try` block and its
`except NavigationException` recovery, excluding the final increment. -/
def navigateIter (BASE_URL : String) (P : Patterns) (timeout : Nat)
    (full : List Waypoint) (waypoint : Waypoint) (i : Nat) (r : Route)
    (w : World) : Except Exc Unit × Route × World :=
  let valid_dest := valid_dest_for full i
  let p := popUrl w
  if remove_qs p.1 = BASE_URL ++ waypoint.dest then
    (.ok (), r, p.2)
  else
    match navigate_waypoint BASE_URL waypoint timeout valid_dest p.2 with
    | (.ok _, w1) => (.ok (), r, w1)
    | (.error (.NavigationException _), w1) =>
      let h := handle_redirect P (some r) r.ignore_oos (some valid_dest)
        (some timeout) w1
      (h.1, (h.2.2).getD r, h.2.1)
    | (.error exc, w1) => (.error exc, r, w1)

/-- The waypoint loop of `Route.navigate` (`nav.py` lines 100-117): each
iteration that completes without raising is followed by
`self.waypoints_reached += 1`; a raised exception propagates at once. -/
def navigateLoop (BASE_URL : String) (P : Patterns) (timeout : Nat)
    (full : List Waypoint) :
    List Waypoint → Nat → Route → World → Except Exc Unit × Route × World
  | [], _, r, w => (.ok (), r, w)
  | waypoint :: rest, i, r, w =>
    match navigateIter BASE_URL P timeout full waypoint i r w with
    | (.ok _, r1, w1) =>
      navigateLoop BASE_URL P timeout full rest (i + 1)
        { r1 with waypoints_reached := r1.waypoints_reached + 1 } w1
    | (.error exc, r1, w1) => (.error exc, r1, w1)

/-- `Route.navigate` (`nav.py` lines 94-118): reset the progress counter,
load the route start directly if not already there, then run the loop. -/
def navigate (BASE_URL : String) (P : Patterns) (r : Route) (timeout : Nat)
    (w : World) : Except Exc Unit × Route × World :=
  let r0 : Route := { r with waypoints_reached := 0 }
  let p := popUrl w
  let w1 :=
    if remove_qs p.1 = r0.route_start then p.2
    else emit (.driver_get r0.route_start) p.2
  navigateLoop BASE_URL P timeout r0.waypoints r0.waypoints 0 r0 w1

/-! ### Helper lemmas -/

theorem startsWithL_iff (n : List Char) : ∀ h : List Char,
    startsWithL n h = true ↔ ∃ t, n ++ t = h := by
  induction n with
  | nil => intro h; simp [startsWithL]
  | cons a as ih =>
    intro h
    cases h with
    | nil => simp [startsWithL]
    | cons b bs =>
      simp only [startsWithL, Bool.and_eq_true, beq_iff_eq, ih, List.cons_append,
        List.cons.injEq]
      constructor
      · rintro ⟨rfl, t, rfl⟩; exact ⟨t, rfl, rfl⟩
      · rintro ⟨t, rfl, rfl⟩; exact ⟨rfl, t, rfl⟩

theorem hasSubL_iff (n : List Char) : ∀ h : List Char,
    hasSubL n h = true ↔ ∃ s t, s ++ n ++ t = h := by
  intro h
  induction h with
  | nil =>
    simp only [hasSubL, startsWithL_iff]
    constructor
    · rintro ⟨t, ht⟩; exact ⟨[], t, by simpa using ht⟩
    · rintro ⟨s, t, hst⟩
      rcases List.append_eq_nil.mp ((List.append_assoc s n t) ▸ hst) with ⟨rfl, h2⟩
      exact ⟨t, by simpa using h2⟩
  | cons b bs ih =>
    simp only [hasSubL, Bool.or_eq_true, startsWithL_iff, ih]
    constructor
    · rintro (⟨t, ht⟩ | ⟨s, t, hst⟩)
      · exact ⟨[], t, by simpa using ht⟩
      · exact ⟨b :: s, t, by simp [← hst]⟩
    · rintro ⟨s, t, hst⟩
      cases s with
      | nil => exact Or.inl ⟨t, by simpa using hst⟩
      | cons x xs =>
        simp only [List.cons_append, List.cons.injEq] at hst
        exact Or.inr ⟨xs, t, hst.2⟩

/-- Python substring containment, characterised: `needle in hay` holds exactly
when some split of `hay` exhibits `needle` contiguously. -/
theorem pyIn_iff (needle hay : String) :
    pyIn needle hay = true ↔ ∃ s t, s ++ needle.data ++ t = hay.data :=
  hasSubL_iff needle.data hay.data

theorem emit_env (e : Event) (w : World) : (emit e w).env = w.env := rfl

theorem emit_trace (e : Event) (w : World) :
    (emit e w).trace = w.trace ++ [e] := rfl

theorem popUrl_trace (w : World) : (popUrl w).2.trace = w.trace := by
  unfold popUrl; split <;> rfl

theorem popAuthFail_trace (w : World) : (popAuthFail w).2.trace = w.trace := by
  unfold popAuthFail; split <;> rfl

theorem popUrlWaitFail_trace (w : World) :
    (popUrlWaitFail w).2.trace = w.trace := by
  unfold popUrlWaitFail; split <;> rfl

theorem popElemFail_urls (w : World) :
    (popElemFail w).2.env.urls = w.env.urls := by
  unfold popElemFail; split <;> rfl

theorem popStale_urls (w : World) : (popStale w).2.env.urls = w.env.urls := by
  unfold popStale; split <;> rfl

theorem wait_for_auth_world (w : World) :
    (wait_for_auth w).2 = (popAuthFail (emit .wait_for_auth w)).2 := by
  unfold wait_for_auth
  dsimp only
  split <;> rfl

theorem handle_oos_world (ig : Bool) (w : World) :
    (handle_oos ig w).2 = emit (.handle_oos ig) w := by
  unfold handle_oos
  dsimp only
  split <;> rfl

/-- `handle_redirect` returns the route it was given, in every branch. -/
theorem handle_redirect_route_eq (P : Patterns) (route : Option Route)
    (ig : Bool) (vd : Option (List String)) (t : Option Nat) (w : World) :
    (handle_redirect P route ig vd t w).2.2 = route := by
  unfold handle_redirect redirect_fallthrough
  dsimp only
  split
  · rfl
  · split
    · rfl
    · split
      · rfl
      · split
        · rfl
        · split
          · split <;> rfl
          · rfl

/-! ### Concrete instances used by counterexamples and witnesses -/

/-- Example pattern table: the three site URL patterns. -/
def exPatterns : Patterns :=
  ⟨"/ap/signin", "/out-of-stock", "/throttle"⟩

/-- A route that has already passed two waypoints
(`waypoints_reached = 2`). -/
def exRouteP2 : Route :=
  ⟨"https://site/start", false,
   [⟨"l1", "/b", false⟩, ⟨"l2", "/c", false⟩], 2⟩

/-- A world whose next observed location is the route start (with a volatile
query string) and which matches none of the patterns. -/
def exWorldStart : World :=
  ⟨⟨["https://site/start?ref=x"], [], [], [], []⟩, []⟩

/-! ### Claims -/

/-- C1: the claim says that with `waypoints_reached > 0` and the current
normalized location equal to the route start (no auth/OOS/throttle pattern
matching), `handle_redirect` falls through to the valid-destination/timeout
path and, with no valid-destination set supplied, raises `UnhandledRedirect`.
On the code (`nav.py` lines 28-31) the `raise RouteRedirect()` sits outside
the `if not route.waypoints_reached` guard, so this concrete call raises
`RouteRedirect` (a different constructor than any `UnhandledRedirect`),
refuting the claim. -/
theorem c1_counterexample :
    (handle_redirect exPatterns (some exRouteP2) false none none exWorldStart).1
      = .error (.RouteRedirect none)
    ∧ (handle_redirect exPatterns (some exRouteP2) false none none exWorldStart).1
      ≠ .error (.UnhandledRedirect none) := by
  constructor
  · rfl
  · decide

/-- C1 (amended): for every call to `handle_redirect` with a (truthy, i.e.
non-empty-waypoints) route in context whose `waypoints_reached` is positive
and whose current normalized location equals the route start (the location
matching none of the auth, out-of-stock or throttle patterns), the
route-start branch still applies: the call raises `RouteRedirect` (with no
message) without reloading the page — it does not fall through to the
valid-destination/timeout path and does not raise `UnhandledRedirect`. -/
theorem c1_start_loopback_progress_pos (P : Patterns) (r : Route) (ig : Bool)
    (vd : Option (List String)) (t : Option Nat) (w : World)
    (h0 : r.waypoints ≠ [])
    (h1 : pyIn P.AUTH_URL (remove_qs (popUrl w).1) = false)
    (h2 : pyIn P.OOS_URL (remove_qs (popUrl w).1) = false)
    (h3 : pyIn P.THROTTLE_URL (remove_qs (popUrl w).1) = false)
    (h4 : remove_qs (popUrl w).1 = r.route_start)
    (h5 : r.waypoints_reached ≠ 0) :
    (handle_redirect P (some r) ig vd t w).1 = .error (.RouteRedirect none)
    ∧ (handle_redirect P (some r) ig vd t w).2.1.trace = w.trace := by
  have hne : r.waypoints.isEmpty = false := by
    cases hw : r.waypoints with
    | nil => exact absurd hw h0
    | cons a l => rfl
  have hhit : routeStartHit (some r) (remove_qs (popUrl w).1) = true := by
    simp [routeStartHit, h4, hne]
  constructor
  · simp [handle_redirect, h1, h2, h3, hhit]
  · simp [handle_redirect, h1, h2, h3, hhit, h5, popUrl_trace]

/-- C1 (amended) witness: a concrete call with two waypoints and
`waypoints_reached = 2` bounced back to the route start. -/
theorem c1_start_loopback_progress_pos_witness :
    pyIn exPatterns.AUTH_URL (remove_qs (popUrl exWorldStart).1) = false
    ∧ ((handle_redirect exPatterns (some exRouteP2) true none none exWorldStart).1
        = .error (.RouteRedirect none)
      ∧ (handle_redirect exPatterns (some exRouteP2) true none none
          exWorldStart).2.1.trace = exWorldStart.trace) :=
  ⟨by decide,
   c1_start_loopback_progress_pos exPatterns exRouteP2 true none none
     exWorldStart (by decide) (by decide) (by decide) (by decide) (by decide)
     (by decide)⟩

/-- C3: `handle_redirect` checks its classification rules in order with the
first match winning; in particular, when the current normalized location
matches the throttle pattern (and neither the auth nor the out-of-stock
pattern) while also equalling the route's start, the throttle classification
wins: the backoff handler runs and `RouteRedirect` is raised with the
throttle message — the route-start branch (and its conditional reload) is
not reached. -/
theorem c3_throttle_beats_start_loop (P : Patterns) (r : Route) (ig : Bool)
    (vd : Option (List String)) (t : Option Nat) (w : World)
    (h1 : pyIn P.AUTH_URL (remove_qs (popUrl w).1) = false)
    (h2 : pyIn P.OOS_URL (remove_qs (popUrl w).1) = false)
    (h3 : pyIn P.THROTTLE_URL (remove_qs (popUrl w).1) = true)
    (h4 : remove_qs (popUrl w).1 = r.route_start) :
    (handle_redirect P (some r) ig vd t w).1
      = .error (.RouteRedirect (some "Redirected after throttle"))
    ∧ (handle_redirect P (some r) ig vd t w).2.1.trace
      = w.trace ++ [.handle_throttle] := by
  constructor
  · simp [handle_redirect, h1, h2, h3]
  · simp [handle_redirect, h1, h2, h3, handle_throttle, emit, popUrl_trace]

/-- A route whose start is itself a throttle page. -/
def exRouteThrottle : Route :=
  ⟨"https://site/throttle", false, [⟨"l1", "/b", false⟩], 0⟩

/-- A world currently on the throttle page (which equals the route start). -/
def exWorldThrottle : World :=
  ⟨⟨["https://site/throttle?x=1"], [], [], [], []⟩, []⟩

/-- C3 witness: a concrete location that both matches the throttle pattern
and equals the route start. -/
theorem c3_throttle_beats_start_loop_witness :
    pyIn exPatterns.THROTTLE_URL (remove_qs (popUrl exWorldThrottle).1) = true
    ∧ ((handle_redirect exPatterns (some exRouteThrottle) false none none
          exWorldThrottle).1
        = .error (.RouteRedirect (some "Redirected after throttle"))
      ∧ (handle_redirect exPatterns (some exRouteThrottle) false none none
          exWorldThrottle).2.1.trace
        = exWorldThrottle.trace ++ [.handle_throttle]) :=
  ⟨by decide,
   c3_throttle_beats_start_loop exPatterns exRouteThrottle false none none
     exWorldThrottle (by decide) (by decide) (by decide) (by decide)⟩

/-- C9: `handle_redirect` never mutates the route supplied in its context:
whatever the arguments and however the call ends (normal return or raised
signal), the route it hands back — counter, waypoint list and start
included — is exactly the route it was given. -/
theorem c9_handle_redirect_route_frame (P : Patterns) (route : Option Route)
    (ig : Bool) (vd : Option (List String)) (t : Option Nat) (w : World) :
    (handle_redirect P route ig vd t w).2.2 = route :=
  handle_redirect_route_eq P route ig vd t w

/-- C10: the auth, out-of-stock and throttle patterns are matched by
substring containment in the normalized current location (first conjunct:
`pyIn` is exactly contiguous-substring occurrence, not equality or anchored
matching), and, in precedence order, any location containing one of these
patterns takes the corresponding branch — for any route in context, so in
particular even when the location also equals the route's start. -/
theorem c10_substring_classification (P : Patterns) (route : Option Route)
    (ig : Bool) (vd : Option (List String)) (t : Option Nat) (w : World) :
    (∀ needle hay : String,
      pyIn needle hay = true ↔ ∃ s u, s ++ needle.data ++ u = hay.data)
    ∧ (pyIn P.AUTH_URL (remove_qs (popUrl w).1) = true →
        (handle_redirect P route ig vd t w).2.1.trace
          = w.trace ++ [.wait_for_auth])
    ∧ (pyIn P.AUTH_URL (remove_qs (popUrl w).1) = false →
        pyIn P.OOS_URL (remove_qs (popUrl w).1) = true →
        (handle_redirect P route ig vd t w).2.1.trace
          = w.trace ++ [.handle_oos ig])
    ∧ (pyIn P.AUTH_URL (remove_qs (popUrl w).1) = false →
        pyIn P.OOS_URL (remove_qs (popUrl w).1) = false →
        pyIn P.THROTTLE_URL (remove_qs (popUrl w).1) = true →
        (handle_redirect P route ig vd t w).2.1.trace
          = w.trace ++ [.handle_throttle]
        ∧ (handle_redirect P route ig vd t w).1
          = .error (.RouteRedirect (some "Redirected after throttle"))) := by
  refine ⟨pyIn_iff, ?_, ?_, ?_⟩
  · intro h
    simp [handle_redirect, h, wait_for_auth_world, popAuthFail_trace,
      emit_trace, popUrl_trace]
  · intro h1 h2
    simp [handle_redirect, h1, h2, handle_oos_world, emit_trace, popUrl_trace]
  · intro h1 h2 h3
    constructor
    · simp [handle_redirect, h1, h2, h3, handle_throttle, emit_trace,
        popUrl_trace]
    · simp [handle_redirect, h1, h2, h3]

/-- A route whose start is itself the auth page (the location equals the
start while containing the auth pattern). -/
def exRouteAuthStart : Route :=
  ⟨"https://site/ap/signin", false, [⟨"l1", "/b", false⟩], 0⟩

/-- A world currently on the auth page, with a volatile query string. -/
def exWorldAuth : World :=
  ⟨⟨["https://site/ap/signin?x=1"], [], [], [], [false]⟩, []⟩

/-- C10 witness: a location containing the auth pattern in the middle (not
equal to it, not a prefix match), which moreover equals the route's start,
still takes the auth branch. -/
theorem c10_substring_classification_witness :
    pyIn exPatterns.AUTH_URL (remove_qs (popUrl exWorldAuth).1) = true
    ∧ (handle_redirect exPatterns (some exRouteAuthStart) false none none
        exWorldAuth).2.1.trace
      = exWorldAuth.trace ++ [.wait_for_auth] :=
  ⟨by decide,
   (c10_substring_classification exPatterns (some exRouteAuthStart) false
     none none exWorldAuth).2.1 (by decide)⟩

/-- A world currently on an unrecognized page. -/
def exWorldMystery : World :=
  ⟨⟨["https://site/mystery"], [], [], [], []⟩, []⟩

/-- C6: the claim says every fatal `UnhandledRedirect` raised by
`handle_redirect` carries the last observed raw location.  On the code
(`nav.py` line 46), the no-known-pattern fall-through raises a bare
`UnhandledRedirect()` with no argument at all: at this concrete input
(location matching no pattern, no valid-destination set) the raised
exception carries no message, hence no location. -/
theorem c6_counterexample :
    (handle_redirect exPatterns none false none none exWorldMystery).1
      = .error (.UnhandledRedirect none) := by
  rfl

/-- C6 (amended): the `UnhandledRedirect` raised when the wait for a
caller-declared valid destination times out carries the last observed raw
location (re-read after the wait, query string included) inside its message;
the `UnhandledRedirect` raised when the location matches no known pattern
and no valid-destination set was supplied carries no message at all. -/
theorem c6_unhandled_location (P : Patterns) (route : Option Route) (ig : Bool)
    (vd : List String) (t : Nat) (u u2 : String) (us us2 : List String)
    (ef st uwRest uw af : List Bool) (tr : List Event)
    (h1 : pyIn P.AUTH_URL (remove_qs u) = false)
    (h2 : pyIn P.OOS_URL (remove_qs u) = false)
    (h3 : pyIn P.THROTTLE_URL (remove_qs u) = false)
    (h4 : routeStartHit route (remove_qs u) = false)
    (hvd : vd ≠ []) (ht : t ≠ 0) :
    ((handle_redirect P route ig (some vd) (some t)
        ⟨⟨u :: u2 :: us, ef, st, true :: uwRest, af⟩, tr⟩).1
      = .error (.UnhandledRedirect (some
          ("Timed out waiting for redirect to a valid dest\nCurrent URL: "
            ++ u2))))
    ∧ pyIn u2
        ("Timed out waiting for redirect to a valid dest\nCurrent URL: "
          ++ u2) = true
    ∧ ((handle_redirect P route ig none none
        ⟨⟨u :: us2, ef, st, uw, af⟩, tr⟩).1
      = .error (.UnhandledRedirect none)) := by
  have hvd' : vd.isEmpty = false := by
    cases vd with
    | nil => exact absurd rfl hvd
    | cons a l => rfl
  have ht' : (t != 0) = true := by simpa using ht
  refine ⟨?_, ?_, ?_⟩
  · simp [handle_redirect, popUrl, h1, h2, h3, h4, redirect_fallthrough,
      truthyList, truthyNat, hvd', ht', popUrlWaitFail, emit]
  · exact (pyIn_iff _ _).mpr
      ⟨("Timed out waiting for redirect to a valid dest\nCurrent URL: ").data,
       [], by simp⟩
  · simp [handle_redirect, popUrl, h1, h2, h3, h4, redirect_fallthrough,
      truthyList]

/-- C6 (amended) witness: a concrete timed-out valid-destination wait and a
concrete pattern-less fall-through. -/
theorem c6_unhandled_location_witness :
    ((handle_redirect exPatterns none false (some ["/b"]) (some 20)
        ⟨⟨["https://site/weird?z", "https://site/weird2?q"], [], [], [true], []⟩,
         []⟩).1
      = .error (.UnhandledRedirect (some
          ("Timed out waiting for redirect to a valid dest\nCurrent URL: "
            ++ "https://site/weird2?q"))))
    ∧ pyIn "https://site/weird2?q"
        ("Timed out waiting for redirect to a valid dest\nCurrent URL: "
          ++ "https://site/weird2?q") = true
    ∧ ((handle_redirect exPatterns none false none none
        ⟨⟨["https://site/weird?z"], [], [], [], []⟩, []⟩).1
      = .error (.UnhandledRedirect none)) :=
  c6_unhandled_location exPatterns none false ["/b"] 20
    "https://site/weird?z" "https://site/weird2?q" [] [] [] [] [] [] [] []
    (by decide) (by decide) (by decide) (by decide) (by decide) (by decide)

theorem isEmpty_and_any (l : List String) (p : String → Bool) :
    (!l.isEmpty && l.any p) = l.any p := by
  cases l <;> simp

/-- Under a successful element wait, `navigate_waypoint`'s outcome is the
verification of the location read after the click-and-wait sequence. -/
theorem navigate_waypoint_fst (B : String) (wp : Waypoint) (t : Nat)
    (vd : List String) (w : World)
    (he : w.env.elemFail.headD false = false) :
    (navigate_waypoint B wp t vd w).1 =
      (if remove_qs (w.env.urls.headD "") = B ++ wp.dest then .ok ()
       else if !vd.isEmpty
           && vd.any (fun d => pyIn d (remove_qs (w.env.urls.headD ""))) then
         .ok ()
       else .error (.NavigationException
         ("Navigation to " ++ wp.dest ++ " failed"))) := by
  obtain ⟨⟨urls, ef, st, uwf, af⟩, tr⟩ := w
  simp only at he
  cases ef with
  | nil =>
    cases st <;> cases urls <;>
      · simp [navigate_waypoint, wait_for_element, popElemFail, jitter,
          click_when_enabled, emit, popStale, popUrl]
        split
        · rfl
        · split <;> rfl
  | cons b ef' =>
    have hb : b = false := by simpa using he
    subst hb
    cases st <;> cases urls <;>
      · simp [navigate_waypoint, wait_for_element, popElemFail, jitter,
          click_when_enabled, emit, popStale, popUrl]
        split
        · rfl
        · split <;> rfl

/-- C4: provided the element wait succeeds, a call to `navigate_waypoint`
returns without raising exactly when the normalized location read after the
click-and-wait sequence equals `BASE_URL + waypoint.dest` or some entry of
`valid_dest` occurs as a substring of it; every failing outcome of
`navigate_waypoint` is a `NavigationException` (the failure signal the
caller's recovery handles), never another exception. -/
theorem c4_waypoint_success_iff (B : String) (wp : Waypoint) (t : Nat)
    (vd : List String) (w : World)
    (he : w.env.elemFail.headD false = false) :
    (∀ exc, (navigate_waypoint B wp t vd w).1 = .error exc →
      ∃ m, exc = .NavigationException m)
    ∧ ((navigate_waypoint B wp t vd w).1 = .ok () ↔
        (remove_qs (w.env.urls.headD "") = B ++ wp.dest
        ∨ vd.any (fun d => pyIn d (remove_qs (w.env.urls.headD ""))) = true)) := by
  have hfst := navigate_waypoint_fst B wp t vd w he
  set u := remove_qs (w.env.urls.headD "") with hu
  constructor
  · intro exc hexc
    rw [hfst] at hexc
    by_cases hA : u = B ++ wp.dest
    · rw [if_pos hA] at hexc
      exact absurd hexc (by simp)
    · rw [if_neg hA] at hexc
      by_cases hB : (!vd.isEmpty && vd.any (fun d => pyIn d u)) = true
      · rw [if_pos hB] at hexc
        exact absurd hexc (by simp)
      · rw [if_neg hB] at hexc
        have hinj : Exc.NavigationException ("Navigation to " ++ wp.dest
            ++ " failed") = exc := by injection hexc
        exact ⟨_, hinj.symm⟩
  · rw [hfst]
    by_cases hA : u = B ++ wp.dest
    · rw [if_pos hA]
      exact ⟨fun _ => Or.inl hA, fun _ => rfl⟩
    · rw [if_neg hA, isEmpty_and_any]
      by_cases hB : vd.any (fun d => pyIn d u) = true
      · rw [if_pos hB]
        exact ⟨fun _ => Or.inr hB, fun _ => rfl⟩
      · rw [if_neg hB]
        constructor
        · intro hcon
          exact absurd hcon (by simp)
        · rintro (h | h)
          · exact absurd h hA
          · exact absurd h hB

/-- The waypoint used in the concrete hops below. -/
def exWpB : Waypoint := ⟨"l1", "/b", false⟩

/-- A world whose element wait succeeds and whose post-click location is the
waypoint destination with a volatile query string. -/
def exWorldHop : World :=
  ⟨⟨["https://b/b?q=1"], [false], [false], [], []⟩, []⟩

/-- C4 witness: the concrete hop above succeeds because the normalized
location equals `BASE_URL + dest`. -/
theorem c4_waypoint_success_iff_witness :
    exWorldHop.env.elemFail.headD false = false
    ∧ (navigate_waypoint "https://b" exWpB 20 ["/y"] exWorldHop).1 = .ok () :=
  ⟨by decide,
   (c4_waypoint_success_iff "https://b" exWpB 20 ["/y"] exWorldHop
     (by decide)).2.mpr (Or.inl (by decide))⟩

/-- C5: the `valid_dest` list computed before attempting the waypoint at
position `i` consists exactly of the destinations of the strictly later
waypoints, in order: it has one entry per waypoint past position `i`, and its
`j`-th entry is the destination of the waypoint at position `i + 1 + j` — in
particular waypoint `i`'s own destination is excluded. -/
theorem c5_valid_dest_exactly_later (wps : List Waypoint) (i j : Nat) :
    (valid_dest_for wps i).length = wps.length - (i + 1)
    ∧ (valid_dest_for wps i)[j]? = (wps[i + 1 + j]?).map (fun wp => wp.dest) := by
  constructor
  · simp [valid_dest_for]
  · simp [valid_dest_for, List.getElem?_map, List.getElem?_drop]

/-- C7: a waypoint whose destination the browser is already at (normalized)
is skipped outright: the iteration consumes only the location read, emits no
event at all — in particular no click — and the loop proceeds to the next
waypoint with the progress counter incremented. -/
theorem c7_skip_no_click (B : String) (P : Patterns) (t : Nat)
    (full : List Waypoint) (wp : Waypoint) (rest : List Waypoint) (i : Nat)
    (r : Route) (w : World)
    (h : remove_qs (popUrl w).1 = B ++ wp.dest) :
    navigateLoop B P t full (wp :: rest) i r w
      = navigateLoop B P t full rest (i + 1)
          { r with waypoints_reached := r.waypoints_reached + 1 } (popUrl w).2
    ∧ (popUrl w).2.trace = w.trace := by
  constructor
  · simp [navigateLoop, navigateIter, h]
  · exact popUrl_trace w

/-- A world already at the destination of `exWpB` (volatile query string). -/
def exWorldSkip : World :=
  ⟨⟨["https://b/b?s=2"], [], [], [], []⟩, []⟩

/-- A fresh route used by the skip witness. -/
def exRouteSkip : Route :=
  ⟨"https://b/start", false, [exWpB], 0⟩

/-- C7 witness: the concrete skip above, with the empty trace untouched. -/
theorem c7_skip_no_click_witness :
    remove_qs (popUrl exWorldSkip).1 = "https://b" ++ exWpB.dest
    ∧ (navigateLoop "https://b" exPatterns 20 [exWpB] [exWpB] 0 exRouteSkip
          exWorldSkip
        = navigateLoop "https://b" exPatterns 20 [exWpB] [] 1
            { exRouteSkip with
                waypoints_reached := exRouteSkip.waypoints_reached + 1 }
            (popUrl exWorldSkip).2
      ∧ (popUrl exWorldSkip).2.trace = exWorldSkip.trace) :=
  ⟨by decide,
   c7_skip_no_click "https://b" exPatterns 20 [exWpB] exWpB [] 0 exRouteSkip
     exWorldSkip (by decide)⟩

/-- C8: a timeout of the staleness wait is swallowed: provided the element
wait succeeds, the entire outcome of `navigate_waypoint` — result, world and
trace — is the same whether the staleness wait timed out or not, so a
staleness-wait timeout alone never produces a failure. -/
theorem c8_staleness_timeout_tolerated (B : String) (wp : Waypoint) (t : Nat)
    (vd : List String) (urls : List String) (ef : List Bool) (b1 b2 : Bool)
    (st uwf af : List Bool) (tr : List Event)
    (he : ef.headD false = false) :
    navigate_waypoint B wp t vd ⟨⟨urls, ef, b1 :: st, uwf, af⟩, tr⟩
      = navigate_waypoint B wp t vd ⟨⟨urls, ef, b2 :: st, uwf, af⟩, tr⟩ := by
  cases ef with
  | nil =>
    simp [navigate_waypoint, wait_for_element, popElemFail, jitter,
      click_when_enabled, emit, popStale, popUrl]
  | cons b ef' =>
    have hb : b = false := by simpa using he
    subst hb
    simp [navigate_waypoint, wait_for_element, popElemFail, jitter,
      click_when_enabled, emit, popStale, popUrl]

/-- C8 witness: the concrete hop of `exWorldHop` with the staleness wait
timing out versus succeeding. -/
theorem c8_staleness_timeout_tolerated_witness :
    ([false] : List Bool).headD false = false
    ∧ navigate_waypoint "https://b" exWpB 20 []
        ⟨⟨["https://b/b"], [false], [true], [], []⟩, []⟩
      = navigate_waypoint "https://b" exWpB 20 []
        ⟨⟨["https://b/b"], [false], [false], [], []⟩, []⟩ :=
  ⟨by decide,
   c8_staleness_timeout_tolerated "https://b" exWpB 20 [] ["https://b/b"]
     [false] true false [] [] [] [] (by decide)⟩

/-- `navigateIter` never mutates the route: the route component of its result
is the route it was given (the recovery call returns the route unchanged). -/
theorem navigateIter_route_eq (B : String) (P : Patterns) (t : Nat)
    (full : List Waypoint) (wp : Waypoint) (i : Nat) (r : Route) (w : World) :
    (navigateIter B P t full wp i r w).2.1 = r := by
  unfold navigateIter
  dsimp only
  split
  · rfl
  · split
    · rfl
    · simp [handle_redirect_route_eq]
    · rfl

/-- The waypoint loop adds exactly one to the progress counter per completed
iteration: on normal completion the counter has grown by the number of
waypoints traversed; on a raised signal the failing iteration is not
counted. -/
theorem navigateLoop_count (B : String) (P : Patterns) (t : Nat)
    (full : List Waypoint) (rest : List Waypoint) :
    ∀ (i : Nat) (r : Route) (w : World),
      ((navigateLoop B P t full rest i r w).1 = .ok () →
        (navigateLoop B P t full rest i r w).2.1.waypoints_reached
          = r.waypoints_reached + rest.length)
      ∧ (∀ e, (navigateLoop B P t full rest i r w).1 = .error e →
          (navigateLoop B P t full rest i r w).2.1.waypoints_reached
            < r.waypoints_reached + rest.length) := by
  induction rest with
  | nil =>
    intro i r w
    constructor
    · intro _; simp [navigateLoop]
    · intro e he; simp [navigateLoop] at he
  | cons wp rest ih =>
    intro i r w
    have hr := navigateIter_route_eq B P t full wp i r w
    rcases hIter : navigateIter B P t full wp i r w with ⟨res, r1, w1⟩
    rw [hIter] at hr
    simp only at hr
    cases res with
    | ok u =>
      have hL : navigateLoop B P t full (wp :: rest) i r w
          = navigateLoop B P t full rest (i + 1)
              { r1 with waypoints_reached := r1.waypoints_reached + 1 } w1 := by
        simp [navigateLoop, hIter]
      rw [hL]
      obtain ⟨ihok, iherr⟩ := ih (i + 1)
        { r1 with waypoints_reached := r1.waypoints_reached + 1 } w1
      constructor
      · intro hok
        rw [ihok hok]
        simp [hr, List.length_cons]
        omega
      · intro e he
        have hlt := iherr e he
        simp [hr, List.length_cons] at hlt ⊢
        omega
    | error exc =>
      have hL : navigateLoop B P t full (wp :: rest) i r w
          = (.error exc, r1, w1) := by
        simp [navigateLoop, hIter]
      rw [hL]
      constructor
      · intro hok; simp at hok
      · intro e _
        simp [hr, List.length_cons]

/-- C2: `Route.navigate` resets the progress counter on entry — its whole
outcome is independent of the counter's prior value — and each waypoint
iteration that completes (directly, by skip, or after silent recovery)
increments the counter exactly once: on normal completion the counter equals
the number of waypoints, and when a recovery raises, the failing waypoint is
not counted, leaving the counter strictly below the number of waypoints. -/
theorem c2_progress_counter (B : String) (P : Patterns) (r : Route)
    (t n : Nat) (w : World) :
    navigate B P r t w = navigate B P { r with waypoints_reached := n } t w
    ∧ ((navigate B P r t w).1 = .ok () →
        (navigate B P r t w).2.1.waypoints_reached = r.waypoints.length)
    ∧ (∀ e, (navigate B P r t w).1 = .error e →
        (navigate B P r t w).2.1.waypoints_reached < r.waypoints.length) := by
  obtain ⟨hok, herr⟩ := navigateLoop_count B P t r.waypoints r.waypoints 0
    { r with waypoints_reached := 0 }
    (if remove_qs (popUrl w).1 = r.route_start then (popUrl w).2
     else emit (.driver_get r.route_start) (popUrl w).2)
  refine ⟨rfl, ?_, ?_⟩
  · intro h
    have := hok (by simpa [navigate] using h)
    simpa [navigate] using this
  · intro e h
    have := herr e (by simpa [navigate] using h)
    simpa [navigate] using this

/-- A two-waypoint route for the end-to-end witness. -/
def exRouteNav : Route :=
  ⟨"https://b/start", false, [⟨"l1", "/b", false⟩, ⟨"l2", "/c", false⟩], 7⟩

/-- An environment driving `exRouteNav` through both hops successfully:
already at the start, each click lands on the expected destination. -/
def exWorldNav : World :=
  ⟨⟨["https://b/start", "https://b/start", "https://b/b?q", "https://b/b",
     "https://b/c"],
    [false, false], [false, false], [], []⟩, []⟩

/-- C2 witness: the concrete two-hop run completes and leaves the counter at
the number of waypoints, despite starting from the stale value 7. -/
theorem c2_progress_counter_witness :
    (navigate "https://b" exPatterns exRouteNav 20 exWorldNav).1 = .ok ()
    ∧ (navigate "https://b" exPatterns exRouteNav 20
        exWorldNav).2.1.waypoints_reached = exRouteNav.waypoints.length :=
  ⟨by rfl,
   (c2_progress_counter "https://b" exPatterns exRouteNav 20 0
     exWorldNav).2.1 (by rfl)⟩

end Deliverance
